/-
Verification of the configuration-merge and request-handling contract of the
Podcastfy FastAPI facade (src/main.py), via a shallow embedding.

Python values are embedded as the inductive `Val`; Python dicts (which are
string-keyed throughout this program) as insertion-ordered association lists
with unique keys, `List (String × Val)`.  Python numbers (int and float alike)
are embedded as `Val.num : Rat`; no claim depends on IEEE float arithmetic,
only on whether the built-in float() conversion succeeds.
-/
import Mathlib

namespace Podcastfy

/-- Embedded Python value. -/
inductive Val where
  | none
  | bool (b : Bool)
  | num (q : Rat)
  | str (s : String)
  | list (l : List Val)
  | dict (d : List (String × Val))

abbrev PyDict := List (String × Val)

abbrev EnvT := List (String × String)

/-- Dict read, first matching key (keys are unique in a Python dict). -/
def lookupA {α : Type} : List (String × α) → String → Option α
  | [], _ => Option.none
  | (k0, v0) :: rest, k => if k0 = k then some v0 else lookupA rest k

/-- Python dict assignment d[k] = v: replaces the value in place if the key is
present (keeping insertion order), otherwise appends the new entry. -/
def assignA {α : Type} : List (String × α) → String → α → List (String × α)
  | [], k, v => [(k, v)]
  | (k0, v0) :: rest, k, v =>
      if k0 = k then (k0, v) :: rest else (k0, v0) :: assignA rest k v

/-- Python d.update(e): assign every entry of e into d, in order. -/
def updateA {α : Type} (d e : List (String × α)) : List (String × α) :=
  e.foldl (fun m kv => assignA m kv.1 kv.2) d

/-- Python x is None. -/
def Val.isNone : Val → Bool
  | Val.none => true
  | _ => false

/-- Python truthiness, as used by if cred: and bool(x). -/
def truthy : Val → Bool
  | Val.none => false
  | Val.bool b => b
  | Val.num q => decide (q ≠ 0)
  | Val.str s => decide (s ≠ "")
  | Val.list l => !l.isEmpty
  | Val.dict d => !d.isEmpty

/-- View a value as a dict; non-dict values are outside the domain of every
theorem that reaches this view (in Python they raise before it is taken). -/
def asDict : Val → PyDict
  | Val.dict d => d
  | _ => []

/-- Python d.get(k, dflt) on a string key. -/
def getDp (d : PyDict) (k : String) (dflt : Val) : Val :=
  (lookupA d k).getD dflt

/-- Domain guard: the text_to_speech entry, when present, is a dict (otherwise
Python raises inside merge_configs / the handler before producing a result). -/
def ttsOkB (d : PyDict) : Bool :=
  match lookupA d "text_to_speech" with
  | some (Val.dict _) => true
  | some _ => false
  | Option.none => true

/-- Lines 34-35 of merge_configs: if both base and override contain
text_to_speech, the nested sub-dict of base is updated in place with the
override sub-entries.  Because merged = base_config.copy() is a SHALLOW copy,
this in-place update acts on the very dict object base_config still holds. -/
def ttsStep (base user : PyDict) : PyDict :=
  match lookupA base "text_to_speech", lookupA user "text_to_speech" with
  | some bv, some uv =>
      assignA base "text_to_speech" (Val.dict (updateA (asDict bv) (asDict uv)))
  | _, _ => base

/-- Lines 38-41 of merge_configs: for every override entry other than
text_to_speech whose value is not None, assign it into the accumulator. -/
def mergeLoop : PyDict → PyDict → PyDict
  | [], m => m
  | (k, v) :: rest, m =>
      mergeLoop rest
        (if k = "text_to_speech" then m else if v.isNone then m else assignA m k v)

/-- merge_configs(base_config, user_config), src/main.py lines 29-43: the
returned merged dict. -/
def merge_configs (base user : PyDict) : PyDict :=
  mergeLoop user (ttsStep base user)

/-- The observable state of the base_config argument AFTER merge_configs
returns.  merged = base_config.copy() copies only the top-level dict, so the
in-place merged[text_to_speech].update(...) of line 35 mutates the nested dict
that base_config shares with merged; the top-level assignments of lines 38-41
rebind keys of the fresh top-level copy only and do not touch base_config. -/
def merge_configs_base_after (base user : PyDict) : PyDict :=
  ttsStep base user

/-- First-defined option, i.e. the lookup in an updated dict: the update wins
where it has the key, the original survives elsewhere. -/
def firstSome (a b : Option Val) : Option Val :=
  match a with
  | some v => some v
  | Option.none => b

/-- Sub-map lookup inside the text_to_speech entry of a config. -/
def ttsSub (d : PyDict) (k : String) : Option Val :=
  lookupA (asDict (getDp d "text_to_speech" (Val.dict []))) k

/-! ### Concrete inputs used by counterexamples and witnesses -/

def cexBase1 : PyDict := [("text_to_speech", Val.dict [("a", Val.num 1)])]

def cexUser1 : PyDict := [("text_to_speech", Val.dict [("a", Val.num 2)])]

def cexUser2 : PyDict := [("text_to_speech", Val.dict [("a", Val.num 1)])]

def cexBase3 : PyDict := [("text_to_speech", Val.dict [("a", Val.num 1)])]

def cexUser3 : PyDict := [("text_to_speech", Val.dict [("a", Val.none)])]

def exBase4 : PyDict :=
  [("x", Val.num 1), ("text_to_speech", Val.dict [("a", Val.num 1), ("b", Val.num 2)])]

def exUser4 : PyDict :=
  [("x", Val.num 5), ("text_to_speech", Val.dict [("b", Val.num 9), ("c", Val.num 3)])]

/-! ### Random artifact filenames (lines 128-135): os.urandom(8).hex() -/

/-- Lower-case hexadecimal digit of a value below 16. -/
def hexChar (n : Nat) : Char :=
  if n < 10 then Char.ofNat (48 + n) else Char.ofNat (87 + n)

/-- bytes.hex(): two zero-padded hex digits per byte, in order. -/
def bytesHexChars : List Nat → List Char
  | [] => []
  | b :: rest => hexChar (b / 16) :: hexChar (b % 16) :: bytesHexChars rest

def hexOfBytes (bs : List Nat) : String :=
  String.mk (bytesHexChars bs)

def audioFilename (rb : List Nat) : String :=
  "podcast_" ++ hexOfBytes rb ++ ".mp3"

/-- The artifact directory (line 62); the os.path.dirname(file) prefix is
abstracted to the fixed directory name. -/
def TEMP_DIR : String := "temp_audio"

def isHexChar (c : Char) : Bool :=
  c.isDigit || ('a' ≤ c && c ≤ 'f')

/-! ### Python float() convertibility (line 95)

float() accepts int, float and bool arguments, and strings matching the float
literal grammar (optional surrounding whitespace, optional sign, digits with
single underscores between digits, optional fraction, optional exponent, and
the special words inf, infinity, nan, case-insensitively).  Everything else
(None, lists, dicts, non-numeric strings) raises.  The numeric VALUE of a
string conversion is abstracted (no claim observes it); convertibility is
modelled exactly. -/

/-- Consume a run of digits in which single underscores may appear between
digits; returns the number of digits consumed and the remaining input. -/
def digRun : List Char → Nat × List Char
  | [] => (0, [])
  | c :: cs =>
    if c.isDigit then
      match cs with
      | '_' :: c2 :: cs2 =>
        if c2.isDigit then
          let r := digRun (c2 :: cs2)
          (r.1 + 1, r.2)
        else (1, '_' :: c2 :: cs2)
      | [] => (1, [])
      | c2 :: cs2 =>
        if c2.isDigit then
          let r := digRun (c2 :: cs2)
          (r.1 + 1, r.2)
        else (1, c2 :: cs2)
    else (0, c :: cs)

/-- Accept an optional exponent part and require the input to be exhausted. -/
def expOk : List Char → Bool
  | [] => true
  | 'e' :: rest =>
    let rest2 := match rest with
      | '+' :: r => r
      | '-' :: r => r
      | r => r
    let d := digRun rest2
    decide (0 < d.1) && d.2.isEmpty
  | _ => false

/-- Accept the body of a float literal (sign already removed, lower-cased). -/
def parseBody (cs : List Char) : Bool :=
  if cs = ['i', 'n', 'f'] then true
  else if cs = ['i', 'n', 'f', 'i', 'n', 'i', 't', 'y'] then true
  else if cs = ['n', 'a', 'n'] then true
  else
    let r1 := digRun cs
    match r1.2 with
    | '.' :: rest =>
      let r2 := digRun rest
      decide (0 < r1.1 + r2.1) && expOk r2.2
    | r => decide (0 < r1.1) && expOk r

def floatableStr (s : String) : Bool :=
  let t :=
    (((s.data.dropWhile Char.isWhitespace).reverse.dropWhile
        Char.isWhitespace).reverse).map Char.toLower
  let t2 := match t with
    | '+' :: r => r
    | '-' :: r => r
    | r => r
  parseBody t2

/-- Does float(v) succeed? -/
def floatable : Val → Bool
  | Val.num _ => true
  | Val.bool _ => true
  | Val.str s => floatableStr s
  | _ => false

/-- The numeric value of float(v).  For strings the exact converted number is
abstracted to 0: no claim observes the converted value, only whether the
conversion raises. -/
def floatVal : Val → Val
  | Val.num q => Val.num q
  | Val.bool b => Val.num (if b then 1 else 0)
  | _ => Val.num 0

def floatErrMsg : Val → String
  | Val.str s => "could not convert string to float: " ++ s
  | _ => "float() argument must be a string or a real number"

def pyFloat (v : Val) : Except String Val :=
  if floatable v then Except.ok (floatVal v) else Except.error (floatErrMsg v)

/-! ### The /generate endpoint (lines 65-141)

The handler body is embedded as a function of the external world: the base
config the loader returned, the generator (a function of the four call
arguments, returning a result or raising), the filesystem isfile predicate,
the eight random bytes drawn for the artifact name, and the process
environment.  A raised exception is an Except.error carrying str(e); the
except clause of lines 140-141 converts it to an HTTP 500 whose detail is that
message. -/

/-- Python value.get-style attribute access used on nested config values: a
non-dict raises AttributeError (it has no .get). -/
def asDictE : Val → Except String PyDict
  | Val.dict d => Except.ok d
  | _ => Except.error "AttributeError: object has no attribute get"

/-- Python d.get(key, dflt) where the key is an arbitrary value: list and dict
keys are unhashable and raise TypeError; other non-string keys are simply
absent from a string-keyed dict. -/
def pyGetKey (d : PyDict) (k : Val) (dflt : Val) : Except String Val :=
  match k with
  | Val.list _ => Except.error "TypeError: unhashable type: list"
  | Val.dict _ => Except.error "TypeError: unhashable type: dict"
  | Val.str s => Except.ok (getDp d s dflt)
  | _ => Except.ok dflt

/-- Shape of the external generator result (line 119): a plain string, an
object exposing an audio_path attribute, or an object without one. -/
inductive GenResult where
  | strRes (s : String)
  | objRes (audio_path : Val)
  | objNoAttr

/-- The copy performed by shutil.copy2 (lines 130 and 135), recorded as an
effect: source value and destination path.  The copy itself is an external
library call; its own filesystem failures (e.g. an audio_path naming a missing
file) are outside this embedding — the spec (section 9) leaves them open. -/
structure StoreEffect where
  src : Val
  dest : String

/-- Lines 126-138: interpret the generator result.  A str result must name an
existing file; an object result must have a truthy audio_path, and copy2
requires it to be path-like (a str), raising TypeError otherwise; every other
shape raises HTTPException(500, "Invalid result format or no audio
generated"), itself caught by the except clause. -/
def handle_result (isfile : String → Bool) (rb : List Nat) (r : GenResult) :
    Except String (PyDict × StoreEffect) :=
  match r with
  | GenResult.strRes s =>
    if isfile s then
      Except.ok ([("audioUrl", Val.str ("/audio/" ++ audioFilename rb))],
                 ⟨Val.str s, TEMP_DIR ++ "/" ++ audioFilename rb⟩)
    else Except.error "Invalid result format or no audio generated"
  | GenResult.objRes ap =>
    if truthy ap then
      match ap with
      | Val.str p =>
        Except.ok ([("audioUrl", Val.str ("/audio/" ++ audioFilename rb))],
                   ⟨Val.str p, TEMP_DIR ++ "/" ++ audioFilename rb⟩)
      | _ => Except.error "TypeError: argument should be a str or an os.PathLike object"
    else Except.error "Invalid result format or no audio generated"
  | GenResult.objNoAttr => Except.error "Invalid result format or no audio generated"

/-- One credential step (lines 70-80): data.get(dataKey) is read; a truthy
value is written to os.environ[envName] (which requires a str, else
TypeError); None, an absent key, or a falsy value leaves the environment
untouched. -/
def setCred (env : EnvT) (data : PyDict) (dataKey envName : String) :
    Except String EnvT :=
  match lookupA data dataKey with
  | Option.none => Except.ok env
  | some v =>
    if truthy v then
      match v with
      | Val.str s => Except.ok (assignA env envName s)
      | _ => Except.error "TypeError: str expected, not non-str value"
    else Except.ok env

/-- The three credential steps in source order, returning the environment as
left behind (even when a step raises) and the raised message, if any. -/
def setCreds (env : EnvT) (data : PyDict) : EnvT × Option String :=
  match setCred env data "openai_key" "OPENAI_API_KEY" with
  | Except.error m => (env, some m)
  | Except.ok e1 =>
    match setCred e1 data "google_key" "GEMINI_API_KEY" with
    | Except.error m => (e1, some m)
    | Except.ok e2 =>
      match setCred e2 data "elevenlabs_key" "ELEVENLABS_API_KEY" with
      | Except.error m => (e2, some m)
      | Except.ok e3 => (e3, Option.none)

/-- Domain guard: each credential field is absent, None, or a string. -/
def okCred (data : PyDict) (k : String) : Bool :=
  match lookupA data k with
  | Option.none => true
  | some Val.none => true
  | some (Val.str _) => true
  | some _ => false

def credsOk (data : PyDict) : Bool :=
  okCred data "openai_key" && okCred data "google_key" && okCred data "elevenlabs_key"

/-- Line 86: tts_model = data.get(tts_model, base.get(text_to_speech, dict())
.get(default_tts_model, openai)); the default argument is evaluated eagerly. -/
def resolved_tts_model (data base : PyDict) : Val :=
  getDp data "tts_model"
    (getDp (asDict (getDp base "text_to_speech" (Val.dict [])))
      "default_tts_model" (Val.str "openai"))

/-- Line 95, inner expression: data.get(creativity, base.get(creativity, 0.7)). -/
def resolvedCreativity (data base : PyDict) : Val :=
  getDp data "creativity" (getDp base "creativity" (Val.num (7 / 10)))

/-- Line 87: tts_base_config = base.get(text_to_speech, dict()).get(tts_model,
dict()), which can raise on an unhashable tts_model key. -/
def ttsBaseVal (data base : PyDict) : Except String Val :=
  pyGetKey (asDict (getDp base "text_to_speech" (Val.dict [])))
    (resolved_tts_model data base) (Val.dict [])

/-- Domain guard for the steps between line 87 and line 95: the tts_model key
is hashable and the looked-up engine section is a dict. -/
def ttsBaseOkB (data base : PyDict) : Bool :=
  match ttsBaseVal data base with
  | Except.ok (Val.dict _) => true
  | _ => false

/-- Lines 82-138 after the credential steps, with the raise points in source
evaluation order: the line 86 attribute access on a non-dict text_to_speech,
the line 87 engine lookup, the line 91 .get on a non-dict engine section, the
line 95 float() coercion, the line 109 .get on non-dict voices and
default_voices, the generator call, and the result handling. -/
def generate_rest (base : PyDict)
    (gen : Val → PyDict → Val → Bool → Except String GenResult)
    (isfile : String → Bool) (rb : List Nat) (data : PyDict) :
    Except String (PyDict × StoreEffect) :=
  match asDictE (getDp base "text_to_speech" (Val.dict [])) with
  | Except.error m => Except.error m
  | Except.ok _btts =>
    let tts_model := resolved_tts_model data base
    match ttsBaseVal data base with
    | Except.error m => Except.error m
    | Except.ok tts_baseV =>
      let voicesV := getDp data "voices" (Val.dict [])
      match asDictE tts_baseV with
      | Except.error m => Except.error m
      | Except.ok tts_base =>
        let default_voicesV := getDp tts_base "default_voices" (Val.dict [])
        match pyFloat (resolvedCreativity data base) with
        | Except.error m => Except.error m
        | Except.ok creativity =>
          match asDictE voicesV with
          | Except.error m => Except.error m
          | Except.ok voices =>
            match asDictE default_voicesV with
            | Except.error m => Except.error m
            | Except.ok default_voices =>
              let user_config : PyDict :=
                [("creativity", creativity),
                 ("conversation_style",
                   getDp data "conversation_style"
                     (getDp base "conversation_style" (Val.list []))),
                 ("roles_person1",
                   getDp data "roles_person1" (getDp base "roles_person1" Val.none)),
                 ("roles_person2",
                   getDp data "roles_person2" (getDp base "roles_person2" Val.none)),
                 ("dialogue_structure",
                   getDp data "dialogue_structure"
                     (getDp base "dialogue_structure" (Val.list []))),
                 ("podcast_name",
                   getDp data "name" (getDp base "podcast_name" Val.none)),
                 ("podcast_tagline",
                   getDp data "tagline" (getDp base "podcast_tagline" Val.none)),
                 ("output_language",
                   getDp data "output_language"
                     (getDp base "output_language" (Val.str "English"))),
                 ("user_instructions",
                   getDp data "user_instructions"
                     (getDp base "user_instructions" (Val.str ""))),
                 ("engagement_techniques",
                   getDp data "engagement_techniques"
                     (getDp base "engagement_techniques" (Val.list []))),
                 ("text_to_speech", Val.dict
                    [("default_tts_model", tts_model),
                     ("model", getDp tts_base "model" Val.none),
                     ("default_voices", Val.dict
                        [("question",
                           getDp voices "question"
                             (getDp default_voices "question" Val.none)),
                         ("answer",
                           getDp voices "answer"
                             (getDp default_voices "answer" Val.none))])])]
              let conversation_config := merge_configs base user_config
              match gen (getDp data "urls" (Val.list [])) conversation_config
                      tts_model (truthy (getDp data "is_long_form" (Val.bool false))) with
              | Except.error m => Except.error m
              | Except.ok result => handle_result isfile rb result

/-- The whole /generate handler (lines 65-141): credential steps first (their
environment writes persist even when a later step raises), then the handler
body; the except clause surfaces any raised message as HTTP 500 with that
message as detail. -/
def generate_podcast_endpoint (env : EnvT) (base : PyDict)
    (gen : Val → PyDict → Val → Bool → Except String GenResult)
    (isfile : String → Bool) (rb : List Nat) (data : PyDict) :
    EnvT × Except (Nat × String) (PyDict × StoreEffect) :=
  match setCreds env data with
  | (env1, some m) => (env1, Except.error (500, m))
  | (env1, Option.none) =>
    match generate_rest base gen isfile rb data with
    | Except.error m => (env1, Except.error (500, m))
    | Except.ok x => (env1, Except.ok x)

/-- The environment produced by one successful credential step. -/
def setCredEnv (env : EnvT) (data : PyDict) (dataKey envName : String) : EnvT :=
  match lookupA data dataKey with
  | some (Val.str s) => if s = "" then env else assignA env envName s
  | _ => env


example :
    merge_configs [("a", Val.num 1)] [("a", Val.num 2), ("b", Val.none)]
      = [("a", Val.num 2)] := rfl

example :
    merge_configs
      [("text_to_speech", Val.dict [("a", Val.num 1), ("b", Val.num 2)])]
      [("text_to_speech", Val.dict [("b", Val.num 9), ("c", Val.num 3)])]
      = [("text_to_speech",
           Val.dict [("a", Val.num 1), ("b", Val.num 9), ("c", Val.num 3)])] := rfl

/-! ### Association-list lemmas -/

theorem lookupA_assignA_self {α : Type} (d : List (String × α)) (k : String) (v : α) :
    lookupA (assignA d k v) k = some v := by
  induction d with
  | nil => simp [assignA, lookupA]
  | cons hd tl ih =>
    by_cases h : hd.1 = k
    · simp [assignA, lookupA, h]
    · simpa [assignA, lookupA, h] using ih

theorem lookupA_assignA_ne {α : Type} (d : List (String × α)) (k k' : String) (v : α)
    (h : k' ≠ k) : lookupA (assignA d k v) k' = lookupA d k' := by
  induction d with
  | nil =>
    have h2 : ¬k = k' := fun h2 => h h2.symm
    simp [assignA, lookupA, h2]
  | cons hd tl ih =>
    obtain ⟨k0, v0⟩ := hd
    by_cases h0 : k0 = k
    · subst h0
      have h2 : ¬k0 = k' := fun h2 => h h2.symm
      simp [assignA, lookupA, h2]
    · simp only [assignA, h0, if_false, lookupA]
      by_cases h1 : k0 = k' <;> simp [h1, ih]

theorem lookupA_eq_none_of_not_mem {α : Type} (d : List (String × α)) (k : String)
    (h : k ∉ d.map Prod.fst) : lookupA d k = Option.none := by
  induction d with
  | nil => rfl
  | cons hd tl ih =>
    simp only [List.map_cons, List.mem_cons, not_or] at h
    have h0 : hd.1 ≠ k := fun h2 => h.1 h2.symm
    simpa [lookupA, h0] using ih h.2

theorem lookupA_updateA (d e : PyDict) (k : String)
    (h : (e.map Prod.fst).Nodup) :
    lookupA (updateA d e) k = firstSome (lookupA e k) (lookupA d k) := by
  induction e generalizing d with
  | nil => simp [updateA, lookupA, firstSome]
  | cons hd tl ih =>
    obtain ⟨k0, v0⟩ := hd
    simp only [List.map_cons, List.nodup_cons] at h
    have step : updateA d ((k0, v0) :: tl) = updateA (assignA d k0 v0) tl := rfl
    rw [step, ih _ h.2]
    by_cases h0 : k0 = k
    · subst h0
      have hnone : lookupA tl k0 = Option.none := lookupA_eq_none_of_not_mem _ _ h.1
      simp [hnone, firstSome, lookupA, lookupA_assignA_self]
    · have h1 : k ≠ k0 := fun h2 => h0 h2.symm
      simp [lookupA, h0, lookupA_assignA_ne _ _ _ _ h1]

/-! ### Lemmas about the top-level merge loop (lines 38-41) -/

theorem mergeLoop_cons (k0 : String) (v0 : Val) (tl m : PyDict) :
    mergeLoop ((k0, v0) :: tl) m
      = mergeLoop tl
          (if k0 = "text_to_speech" then m
           else if v0.isNone then m else assignA m k0 v0) := rfl

theorem lookupA_mergeStep_ne (m : PyDict) (k0 k : String) (v0 : Val) (h : k0 ≠ k) :
    lookupA
      (if k0 = "text_to_speech" then m
       else if v0.isNone then m else assignA m k0 v0) k = lookupA m k := by
  split
  · rfl
  · split
    · rfl
    · exact lookupA_assignA_ne _ _ _ _ (Ne.symm h)

theorem lookupA_mergeStep_self (m : PyDict) (k0 : String) (v0 : Val)
    (h1 : k0 ≠ "text_to_speech") (h2 : v0.isNone = false) :
    lookupA
      (if k0 = "text_to_speech" then m
       else if v0.isNone then m else assignA m k0 v0) k0 = some v0 := by
  rw [if_neg h1, h2]
  simp [lookupA_assignA_self]

theorem mergeStep_of_none (m : PyDict) (k0 : String) (v0 : Val)
    (h2 : v0.isNone = true) :
    (if k0 = "text_to_speech" then m
     else if v0.isNone then m else assignA m k0 v0) = m := by
  rw [h2]
  simp

theorem lookupA_mergeLoop_of_absent (user m : PyDict) (k : String)
    (h : lookupA user k = Option.none) :
    lookupA (mergeLoop user m) k = lookupA m k := by
  induction user generalizing m with
  | nil => rfl
  | cons hd tl ih =>
    obtain ⟨k0, v0⟩ := hd
    have h0 : ¬k0 = k := by
      intro hc
      simp [lookupA, hc] at h
    have h' : lookupA tl k = Option.none := by simpa [lookupA, h0] using h
    rw [mergeLoop_cons, ih _ h', lookupA_mergeStep_ne _ _ _ _ h0]

theorem lookupA_mergeLoop_tts (user m : PyDict) :
    lookupA (mergeLoop user m) "text_to_speech" = lookupA m "text_to_speech" := by
  induction user generalizing m with
  | nil => rfl
  | cons hd tl ih =>
    obtain ⟨k0, v0⟩ := hd
    rw [mergeLoop_cons, ih]
    by_cases h1 : k0 = "text_to_speech"
    · rw [if_pos h1]
    · exact lookupA_mergeStep_ne _ _ _ _ h1

theorem lookupA_mergeLoop_of_some (user m : PyDict) (k : String) (v : Val)
    (hnd : (user.map Prod.fst).Nodup) (hk : k ≠ "text_to_speech")
    (h : lookupA user k = some v) (hv : v.isNone = false) :
    lookupA (mergeLoop user m) k = some v := by
  induction user generalizing m with
  | nil => simp [lookupA] at h
  | cons hd tl ih =>
    obtain ⟨k0, v0⟩ := hd
    simp only [List.map_cons, List.nodup_cons] at hnd
    rw [mergeLoop_cons]
    by_cases h0 : k0 = k
    · subst h0
      have hv0 : v0 = v := by simpa [lookupA] using h
      subst hv0
      have habs : lookupA tl k0 = Option.none :=
        lookupA_eq_none_of_not_mem _ _ hnd.1
      rw [lookupA_mergeLoop_of_absent _ _ _ habs]
      exact lookupA_mergeStep_self _ _ _ hk hv
    · have h' : lookupA tl k = some v := by simpa [lookupA, h0] using h
      exact ih _ hnd.2 h'

theorem lookupA_mergeLoop_of_none_val (user m : PyDict) (k : String)
    (hnd : (user.map Prod.fst).Nodup) (hk : k ≠ "text_to_speech")
    (h : lookupA user k = some Val.none) :
    lookupA (mergeLoop user m) k = lookupA m k := by
  induction user generalizing m with
  | nil => simp [lookupA] at h
  | cons hd tl ih =>
    obtain ⟨k0, v0⟩ := hd
    simp only [List.map_cons, List.nodup_cons] at hnd
    rw [mergeLoop_cons]
    by_cases h0 : k0 = k
    · subst h0
      have hv0 : v0 = Val.none := by simpa [lookupA] using h
      subst hv0
      have habs : lookupA tl k0 = Option.none :=
        lookupA_eq_none_of_not_mem _ _ hnd.1
      rw [mergeStep_of_none _ _ Val.none rfl]
      exact lookupA_mergeLoop_of_absent _ _ _ habs
    · have h' : lookupA tl k = some Val.none := by simpa [lookupA, h0] using h
      rw [ih _ hnd.2 h', lookupA_mergeStep_ne _ _ _ _ h0]

/-! ### Lemmas about the text_to_speech step (lines 34-35) -/

theorem ttsStep_of_missing (base user : PyDict)
    (h : lookupA base "text_to_speech" = Option.none ∨
         lookupA user "text_to_speech" = Option.none) :
    ttsStep base user = base := by
  unfold ttsStep
  rcases h with h | h
  · rw [h]
  · rw [h]
    cases lookupA base "text_to_speech" <;> rfl

theorem lookupA_ttsStep_ne (base user : PyDict) (k : String)
    (hk : k ≠ "text_to_speech") :
    lookupA (ttsStep base user) k = lookupA base k := by
  unfold ttsStep
  cases hb : lookupA base "text_to_speech" with
  | none => rfl
  | some bv =>
    cases hu : lookupA user "text_to_speech" with
    | none => rfl
    | some uv => exact lookupA_assignA_ne _ _ _ _ hk

theorem lookupA_ttsStep_both (base user : PyDict) (bv uv : Val)
    (hb : lookupA base "text_to_speech" = some bv)
    (hu : lookupA user "text_to_speech" = some uv) :
    lookupA (ttsStep base user) "text_to_speech"
      = some (Val.dict (updateA (asDict bv) (asDict uv))) := by
  unfold ttsStep
  rw [hb, hu]
  exact lookupA_assignA_self _ _ _

/-! ### C1: merge_configs is NOT free of side effects on base (corrected) -/

/-- C1 counterexample: with base and override both containing a
text_to_speech sub-dict, the call mutates the nested sub-dict of base (the
shallow base_config.copy() shares it with merged, and line 35 updates it in
place), so base is not left unchanged. -/
theorem merge_mutates_base_counterexample :
    merge_configs_base_after cexBase1 cexUser1 ≠ cexBase1 := by
  intro h
  have h2 : ttsSub (merge_configs_base_after cexBase1 cexUser1) "a"
      = ttsSub cexBase1 "a" := by rw [h]
  have h3 : (some (Val.num 2) : Option Val) = some (Val.num 1) := h2
  simp only [Option.some.injEq, Val.num.injEq] at h3
  exact absurd h3 (by norm_num)

/-- C1 amended: merge_configs leaves base unchanged whenever base and override
do not both contain a text_to_speech key, and in every case it can change only
the text_to_speech entry of base (the override argument is never written at
all: the code only reads user_config). -/
theorem merge_configs_base_frame (base user : PyDict)
    (_hB : ttsOkB base = true) (_hU : ttsOkB user = true) :
    ((lookupA base "text_to_speech" = Option.none ∨
      lookupA user "text_to_speech" = Option.none) →
      merge_configs_base_after base user = base)
    ∧ (∀ k, k ≠ "text_to_speech" →
        lookupA (merge_configs_base_after base user) k = lookupA base k) :=
  ⟨fun h => ttsStep_of_missing base user h,
   fun k hk => lookupA_ttsStep_ne base user k hk⟩

/-- C1 witness: the amended frame property evaluated at concrete configs. -/
theorem merge_configs_base_frame_witness :
    merge_configs_base_after [("a", Val.num 1)] [("b", Val.num 2)] = [("a", Val.num 1)]
    ∧ lookupA (merge_configs_base_after cexBase1 cexUser1) "other"
        = lookupA cexBase1 "other" := by
  have h1 := merge_configs_base_frame [("a", Val.num 1)] [("b", Val.num 2)] rfl rfl
  have h2 := merge_configs_base_frame cexBase1 cexUser1 rfl rfl
  exact ⟨h1.1 (Or.inl rfl), h2.2 "other" (by decide)⟩

/-! ### C2: an override text_to_speech is NOT inserted when base lacks the key
(corrected) -/

/-- C2 counterexample: base lacks text_to_speech and the override carries a
non-null text_to_speech dict, yet the merge result does not contain it — the
top-level loop of lines 38-41 skips the text_to_speech key unconditionally and
the sub-merge of lines 34-35 only runs when BOTH sides have the key. -/
theorem merge_drops_tts_counterexample :
    merge_configs [] cexUser2 = []
    ∧ lookupA (merge_configs [] cexUser2) "text_to_speech" = Option.none :=
  ⟨rfl, rfl⟩

/-- C2 amended: when base lacks text_to_speech, the override value for that
key is discarded — the merge result lacks text_to_speech as well. -/
theorem merge_configs_tts_dropped (base user : PyDict)
    (h : lookupA base "text_to_speech" = Option.none) :
    lookupA (merge_configs base user) "text_to_speech" = Option.none := by
  unfold merge_configs
  rw [lookupA_mergeLoop_tts, ttsStep_of_missing base user (Or.inl h), h]

/-- C2 witness: the amended claim evaluated at a concrete input. -/
theorem merge_configs_tts_dropped_witness :
    lookupA (merge_configs [("x", Val.num 1)] cexUser2) "text_to_speech"
      = Option.none :=
  merge_configs_tts_dropped [("x", Val.num 1)] cexUser2 rfl

/-! ### C3: null-safety holds at top level but FAILS for null sub-keys inside
text_to_speech (corrected) -/

/-- C3 counterexample: a null override sub-value inside text_to_speech DOES
erase the base sub-value — dict.update does not skip None values, so the base
entry a = 1 becomes a = None. -/
theorem merge_null_subkey_counterexample :
    ttsSub (merge_configs cexBase3 cexUser3) "a" ≠ ttsSub cexBase3 "a" := by
  intro h
  have h3 : (some Val.none : Option Val) = some (Val.num 1) := h
  simp at h3

/-- C3 amended: a null or absent override value never erases a base value at
the TOP level, and an absent sub-key inside text_to_speech preserves the base
sub-value; but a null override sub-value inside text_to_speech overwrites the
base sub-value with null. -/
theorem merge_configs_null_safety (base user : PyDict)
    (_hB : ttsOkB base = true) (_hU : ttsOkB user = true)
    (hnd : (user.map Prod.fst).Nodup) :
    (∀ k, lookupA user k = Option.none →
        lookupA (merge_configs base user) k = lookupA base k)
    ∧ (∀ k, k ≠ "text_to_speech" → lookupA user k = some Val.none →
        lookupA (merge_configs base user) k = lookupA base k)
    ∧ (∀ bd ud k, lookupA base "text_to_speech" = some (Val.dict bd) →
        lookupA user "text_to_speech" = some (Val.dict ud) →
        (ud.map Prod.fst).Nodup → lookupA ud k = Option.none →
        ttsSub (merge_configs base user) k = lookupA bd k)
    ∧ (∀ bd ud k, lookupA base "text_to_speech" = some (Val.dict bd) →
        lookupA user "text_to_speech" = some (Val.dict ud) →
        (ud.map Prod.fst).Nodup → lookupA ud k = some Val.none →
        ttsSub (merge_configs base user) k = some Val.none) := by
  refine ⟨fun k h => ?_, fun k hk h => ?_, fun bd ud k hb hu hndu h => ?_,
          fun bd ud k hb hu hndu h => ?_⟩
  · by_cases hk : k = "text_to_speech"
    · subst hk
      unfold merge_configs
      rw [lookupA_mergeLoop_tts, ttsStep_of_missing base user (Or.inr h)]
    · unfold merge_configs
      rw [lookupA_mergeLoop_of_absent _ _ _ h, lookupA_ttsStep_ne _ _ _ hk]
  · unfold merge_configs
    rw [lookupA_mergeLoop_of_none_val _ _ _ hnd hk h, lookupA_ttsStep_ne _ _ _ hk]
  · unfold merge_configs ttsSub getDp
    rw [lookupA_mergeLoop_tts, lookupA_ttsStep_both base user _ _ hb hu]
    simp only [Option.getD, asDict]
    rw [lookupA_updateA _ _ _ hndu, h]
    rfl
  · unfold merge_configs ttsSub getDp
    rw [lookupA_mergeLoop_tts, lookupA_ttsStep_both base user _ _ hb hu]
    simp only [Option.getD, asDict]
    rw [lookupA_updateA _ _ _ hndu, h]
    rfl

/-- C3 witness: the amended null-safety properties evaluated concretely. -/
theorem merge_configs_null_safety_witness :
    lookupA (merge_configs cexBase3 cexUser3) "missing" = lookupA cexBase3 "missing"
    ∧ ttsSub (merge_configs cexBase3 cexUser3) "a" = some Val.none := by
  have h := merge_configs_null_safety cexBase3 cexUser3 rfl rfl (by decide)
  refine ⟨h.1 "missing" rfl, ?_⟩
  exact h.2.2.2 [("a", Val.num 1)] [("a", Val.none)] "a" rfl rfl (by decide) rfl

/-! ### C4: override precedence (confirmed) -/

/-- C4: a non-null override value at a top-level key other than text_to_speech
wins; when both sides carry a text_to_speech dict, the result text_to_speech
is the per-subkey merge: override sub-entries win, base sub-entries survive
when not overridden. -/
theorem merge_override_precedence (base user : PyDict)
    (_hB : ttsOkB base = true) (_hU : ttsOkB user = true)
    (hnd : (user.map Prod.fst).Nodup) :
    (∀ k v, k ≠ "text_to_speech" → lookupA user k = some v → v.isNone = false →
        lookupA (merge_configs base user) k = some v)
    ∧ (∀ bd ud, lookupA base "text_to_speech" = some (Val.dict bd) →
        lookupA user "text_to_speech" = some (Val.dict ud) →
        (ud.map Prod.fst).Nodup →
        ∀ sk, ttsSub (merge_configs base user) sk
          = firstSome (lookupA ud sk) (lookupA bd sk)) := by
  constructor
  · intro k v hk h hv
    exact lookupA_mergeLoop_of_some _ _ _ _ hnd hk h hv
  · intro bd ud hb hu hndu sk
    unfold merge_configs ttsSub getDp
    rw [lookupA_mergeLoop_tts, lookupA_ttsStep_both base user _ _ hb hu]
    simp only [Option.getD, asDict]
    exact lookupA_updateA _ _ _ hndu

/-- C4 witness: the example of the spec — base text_to_speech a=1, b=2 merged
with override text_to_speech b=9, c=3 yields a=1, b=9, c=3, and the non-null
top-level override x=5 wins. -/
theorem merge_override_precedence_witness :
    lookupA (merge_configs exBase4 exUser4) "x" = some (Val.num 5)
    ∧ ttsSub (merge_configs exBase4 exUser4) "a" = some (Val.num 1)
    ∧ ttsSub (merge_configs exBase4 exUser4) "b" = some (Val.num 9)
    ∧ ttsSub (merge_configs exBase4 exUser4) "c" = some (Val.num 3) := by
  have h := merge_override_precedence exBase4 exUser4 rfl rfl (by decide)
  have hsub := h.2 [("a", Val.num 1), ("b", Val.num 2)]
    [("b", Val.num 9), ("c", Val.num 3)] rfl rfl (by decide)
  exact ⟨h.1 "x" (Val.num 5) (by decide) rfl rfl, hsub "a", hsub "b", hsub "c"⟩

/-! ### C5: merge identity (confirmed) -/

/-- C5: merging any base with an empty override returns base unchanged. -/
theorem merge_identity (base : PyDict) : merge_configs base [] = base := by
  have h : merge_configs base [] = ttsStep base [] := rfl
  rw [h]
  exact ttsStep_of_missing base [] (Or.inr rfl)

theorem bytesHexChars_length (bs : List Nat) :
    (bytesHexChars bs).length = 2 * bs.length := by
  induction bs with
  | nil => rfl
  | cons b rest ih => simp [bytesHexChars, ih]; omega

theorem isHexChar_hexChar (n : Nat) (h : n < 16) : isHexChar (hexChar n) = true := by
  interval_cases n <;> decide

theorem bytesHexChars_all_hex (bs : List Nat) (h : ∀ b ∈ bs, b < 256) :
    ∀ c ∈ bytesHexChars bs, isHexChar c = true := by
  induction bs with
  | nil => intro c hc; simp [bytesHexChars] at hc
  | cons b rest ih =>
    intro c hc
    have hb : b < 256 := h b (by simp)
    simp only [bytesHexChars, List.mem_cons] at hc
    rcases hc with rfl | rfl | hc
    · exact isHexChar_hexChar _ (by omega)
    · exact isHexChar_hexChar _ (Nat.mod_lt _ (by norm_num))
    · exact ih (fun x hx => h x (by simp [hx])) c hc

example : floatable (Val.str " -1_2.5e+3 ") = true := by decide

example : floatable (Val.str "Infinity") = true := by decide

example : floatable (Val.str "1e") = false := by decide

example : floatable (Val.str "") = false := by decide

example : floatable Val.none = false := by decide

example : floatable (Val.list []) = false := by decide

/-! ### Helper lemmas about the credential steps -/

theorem setCred_ok (env : EnvT) (data : PyDict) (dk en : String)
    (h : okCred data dk = true) :
    setCred env data dk en = Except.ok (setCredEnv env data dk en) := by
  unfold setCred setCredEnv
  cases hv : lookupA data dk with
  | none => rfl
  | some v =>
    cases v with
    | str s =>
      by_cases hs : s = ""
      · subst hs; simp [truthy]
      · simp [truthy, hs]
    | none => simp [truthy]
    | bool b => exfalso; unfold okCred at h; rw [hv] at h; simp at h
    | num q => exfalso; unfold okCred at h; rw [hv] at h; simp at h
    | list l => exfalso; unfold okCred at h; rw [hv] at h; simp at h
    | dict d => exfalso; unfold okCred at h; rw [hv] at h; simp at h

theorem setCreds_ok (env : EnvT) (data : PyDict) (h : credsOk data = true) :
    setCreds env data
      = (setCredEnv (setCredEnv (setCredEnv env data "openai_key" "OPENAI_API_KEY")
           data "google_key" "GEMINI_API_KEY") data "elevenlabs_key" "ELEVENLABS_API_KEY",
         Option.none) := by
  unfold credsOk at h
  simp only [Bool.and_eq_true] at h
  obtain ⟨⟨h1, h2⟩, h3⟩ := h
  unfold setCreds
  simp only [setCred_ok env data "openai_key" "OPENAI_API_KEY" h1]
  simp only [setCred_ok (setCredEnv env data "openai_key" "OPENAI_API_KEY")
    data "google_key" "GEMINI_API_KEY" h2]
  simp only [setCred_ok
    (setCredEnv (setCredEnv env data "openai_key" "OPENAI_API_KEY")
      data "google_key" "GEMINI_API_KEY")
    data "elevenlabs_key" "ELEVENLABS_API_KEY" h3]

theorem lookupA_setCredEnv_ne (env : EnvT) (data : PyDict) (dk en en' : String)
    (h : en' ≠ en) :
    lookupA (setCredEnv env data dk en) en' = lookupA env en' := by
  unfold setCredEnv
  cases lookupA data dk with
  | none => rfl
  | some v =>
    cases v with
    | str s =>
      by_cases hs : s = ""
      · simp [hs]
      · simp [hs, lookupA_assignA_ne _ _ _ _ h]
    | none => rfl
    | bool b => rfl
    | num q => rfl
    | list l => rfl
    | dict d => rfl

theorem lookupA_setCredEnv_set (env : EnvT) (data : PyDict) (dk en : String)
    (s : String) (hs : s ≠ "") (h : lookupA data dk = some (Val.str s)) :
    lookupA (setCredEnv env data dk en) en = some s := by
  unfold setCredEnv
  rw [h]
  simp [hs, lookupA_assignA_self]

theorem setCredEnv_absent (env : EnvT) (data : PyDict) (dk en : String)
    (h : lookupA data dk = Option.none) :
    setCredEnv env data dk en = env := by
  unfold setCredEnv
  rw [h]

/-! ### C6: tts_model fallback order (confirmed) -/

/-- C6: the resolved tts_model is the request value when the request carries
the tts_model key, else the default_tts_model of the base text_to_speech
section when present, else the literal openai. -/
theorem tts_model_resolution (data base : PyDict) (_hB : ttsOkB base = true) :
    (∀ v, lookupA data "tts_model" = some v → resolved_tts_model data base = v)
    ∧ (lookupA data "tts_model" = Option.none →
        ∀ bd v, lookupA base "text_to_speech" = some (Val.dict bd) →
          lookupA bd "default_tts_model" = some v →
          resolved_tts_model data base = v)
    ∧ (lookupA data "tts_model" = Option.none →
        (lookupA base "text_to_speech" = Option.none ∨
         ∃ bd, lookupA base "text_to_speech" = some (Val.dict bd) ∧
           lookupA bd "default_tts_model" = Option.none) →
        resolved_tts_model data base = Val.str "openai") := by
  refine ⟨fun v h => ?_, fun h bd v hb hv => ?_, fun h hd => ?_⟩
  · simp [resolved_tts_model, getDp, h]
  · simp [resolved_tts_model, getDp, h, hb, asDict, hv]
  · rcases hd with hb | ⟨bd, hb, hv⟩
    · simp [resolved_tts_model, getDp, h, hb, asDict, lookupA]
    · simp [resolved_tts_model, getDp, h, hb, asDict, hv]

/-- C6 witness: the three fallback layers evaluated concretely. -/
theorem tts_model_resolution_witness :
    resolved_tts_model [("tts_model", Val.str "elevenlabs")] [] = Val.str "elevenlabs"
    ∧ resolved_tts_model []
        [("text_to_speech", Val.dict [("default_tts_model", Val.str "gemini")])]
        = Val.str "gemini"
    ∧ resolved_tts_model [] [] = Val.str "openai" := by
  have h1 := tts_model_resolution [("tts_model", Val.str "elevenlabs")] [] rfl
  have h2 := tts_model_resolution []
    [("text_to_speech", Val.dict [("default_tts_model", Val.str "gemini")])] rfl
  have h3 := tts_model_resolution [] [] rfl
  exact ⟨h1.1 _ rfl, h2.2.1 rfl _ _ rfl rfl, h3.2.2 rfl (Or.inl rfl)⟩

/-! ### C7: generator result handling and artifact naming (confirmed) -/

/-- C7: a string result naming an existing file, or an object result with a
non-empty (string) audio_path, is copied into the artifact directory under the
fresh name podcast_<16 hex characters>.mp3 and answered with
audioUrl = /audio/<filename>; every other result shape raises, which the
request boundary turns into HTTP 500. -/
theorem handle_result_spec (isfile : String → Bool) (rb : List Nat) (r : GenResult)
    (hlen : rb.length = 8) (hbytes : ∀ b ∈ rb, b < 256) :
    (∀ s, r = GenResult.strRes s → isfile s = true →
        handle_result isfile rb r
          = Except.ok ([("audioUrl", Val.str ("/audio/" ++ audioFilename rb))],
              ⟨Val.str s, TEMP_DIR ++ "/" ++ audioFilename rb⟩))
    ∧ (∀ p, r = GenResult.objRes (Val.str p) → p ≠ "" →
        handle_result isfile rb r
          = Except.ok ([("audioUrl", Val.str ("/audio/" ++ audioFilename rb))],
              ⟨Val.str p, TEMP_DIR ++ "/" ++ audioFilename rb⟩))
    ∧ audioFilename rb = "podcast_" ++ hexOfBytes rb ++ ".mp3"
    ∧ (hexOfBytes rb).length = 16
    ∧ (∀ c ∈ (hexOfBytes rb).data, isHexChar c = true)
    ∧ ((∀ s, r = GenResult.strRes s → isfile s = false) →
       (∀ p, r = GenResult.objRes (Val.str p) → p = "") →
       ∃ m, handle_result isfile rb r = Except.error m) := by
  refine ⟨?_, ?_, rfl, ?_, ?_, ?_⟩
  · intro s hr hf
    subst hr
    simp [handle_result, hf]
  · intro p hr hp
    subst hr
    simp [handle_result, truthy, hp]
  · have h2 : (bytesHexChars rb).length = 16 := by rw [bytesHexChars_length, hlen]
    simpa [hexOfBytes, String.length] using h2
  · intro c hc
    exact bytesHexChars_all_hex rb hbytes c hc
  · intro h1 h2
    cases r with
    | strRes s =>
      exact ⟨"Invalid result format or no audio generated",
        by simp [handle_result, h1 s rfl]⟩
    | objRes ap =>
      cases hap : truthy ap with
      | false =>
        exact ⟨"Invalid result format or no audio generated",
          by simp [handle_result, hap]⟩
      | true =>
        cases ap with
        | str p =>
          have hp := h2 p rfl
          rw [hp] at hap
          simp [truthy] at hap
        | none => simp [truthy] at hap
        | bool b =>
          exact ⟨"TypeError: argument should be a str or an os.PathLike object",
            by simp [handle_result, hap]⟩
        | num q =>
          exact ⟨"TypeError: argument should be a str or an os.PathLike object",
            by simp [handle_result, hap]⟩
        | list l =>
          exact ⟨"TypeError: argument should be a str or an os.PathLike object",
            by simp [handle_result, hap]⟩
        | dict d =>
          exact ⟨"TypeError: argument should be a str or an os.PathLike object",
            by simp [handle_result, hap]⟩
    | objNoAttr =>
      exact ⟨"Invalid result format or no audio generated", rfl⟩

/-- C7 witness: a concrete existing-file string result with eight concrete
random bytes yields the hex filename and the audio URL. -/
theorem handle_result_spec_witness :
    handle_result (fun _ => true) [0, 17, 34, 51, 68, 85, 102, 119]
        (GenResult.strRes "/tmp/a.mp3")
      = Except.ok ([("audioUrl", Val.str "/audio/podcast_0011223344556677.mp3")],
          ⟨Val.str "/tmp/a.mp3", "temp_audio/podcast_0011223344556677.mp3"⟩)
    ∧ (hexOfBytes [0, 17, 34, 51, 68, 85, 102, 119]).length = 16 := by
  have h := handle_result_spec (fun _ => true) [0, 17, 34, 51, 68, 85, 102, 119]
    (GenResult.strRes "/tmp/a.mp3") rfl (by decide)
  exact ⟨(h.1 "/tmp/a.mp3" rfl rfl).trans rfl, h.2.2.2.1⟩

/-! ### C8: every failure surfaces as HTTP 500 with the message as detail
(confirmed) -/

/-- C8: whenever a credential step or the handler body raises with message m,
the endpoint answers HTTP 500 with detail m. -/
theorem generate_error_propagation (env : EnvT) (base : PyDict)
    (gen : Val → PyDict → Val → Bool → Except String GenResult)
    (isfile : String → Bool) (rb : List Nat) (data : PyDict) :
    (∀ e m, setCreds env data = (e, some m) →
        generate_podcast_endpoint env base gen isfile rb data
          = (e, Except.error (500, m)))
    ∧ (∀ e m, setCreds env data = (e, Option.none) →
        generate_rest base gen isfile rb data = Except.error m →
        generate_podcast_endpoint env base gen isfile rb data
          = (e, Except.error (500, m))) := by
  constructor
  · intro e m h
    unfold generate_podcast_endpoint
    rw [h]
  · intro e m h h2
    unfold generate_podcast_endpoint
    rw [h, h2]

/-- C8 witness: a generator that raises propagates its message as the
500 detail. -/
theorem generate_error_propagation_witness :
    generate_podcast_endpoint [] []
        (fun _ _ _ _ => Except.error "generation failed") (fun _ => false) [] []
      = ([], Except.error (500, "generation failed")) := by
  have h := generate_error_propagation [] []
    (fun _ _ _ _ => Except.error "generation failed") (fun _ => false) [] []
  exact h.2 [] "generation failed" rfl rfl

/-! ### C9: credential environment variables (confirmed) -/

/-- C9: with each credential field either absent, None, or a string, the
endpoint never fails in the credential steps; a non-empty string credential is
written to the corresponding environment variable, an absent credential leaves
its variable unchanged, and the environment the endpoint leaves behind is
exactly the post-credential environment no matter what the generator does
(the writes happen before the generator is invoked). -/
theorem credential_env_vars (env : EnvT) (data : PyDict) (h : credsOk data = true) :
    (setCreds env data).2 = Option.none
    ∧ (∀ s, s ≠ "" → lookupA data "openai_key" = some (Val.str s) →
        lookupA (setCreds env data).1 "OPENAI_API_KEY" = some s)
    ∧ (lookupA data "openai_key" = Option.none →
        lookupA (setCreds env data).1 "OPENAI_API_KEY" = lookupA env "OPENAI_API_KEY")
    ∧ (∀ s, s ≠ "" → lookupA data "google_key" = some (Val.str s) →
        lookupA (setCreds env data).1 "GEMINI_API_KEY" = some s)
    ∧ (lookupA data "google_key" = Option.none →
        lookupA (setCreds env data).1 "GEMINI_API_KEY" = lookupA env "GEMINI_API_KEY")
    ∧ (∀ s, s ≠ "" → lookupA data "elevenlabs_key" = some (Val.str s) →
        lookupA (setCreds env data).1 "ELEVENLABS_API_KEY" = some s)
    ∧ (lookupA data "elevenlabs_key" = Option.none →
        lookupA (setCreds env data).1 "ELEVENLABS_API_KEY"
          = lookupA env "ELEVENLABS_API_KEY")
    ∧ (∀ base gen isfile rb,
        (generate_podcast_endpoint env base gen isfile rb data).1
          = (setCreds env data).1) := by
  rw [setCreds_ok env data h]
  refine ⟨rfl, ?_, ?_, ?_, ?_, ?_, ?_, ?_⟩
  · intro s hs hk
    rw [lookupA_setCredEnv_ne _ _ _ _ _ (by decide),
        lookupA_setCredEnv_ne _ _ _ _ _ (by decide)]
    exact lookupA_setCredEnv_set _ _ _ _ _ hs hk
  · intro hk
    rw [lookupA_setCredEnv_ne _ _ _ _ _ (by decide),
        lookupA_setCredEnv_ne _ _ _ _ _ (by decide),
        setCredEnv_absent _ _ _ _ hk]
  · intro s hs hk
    rw [lookupA_setCredEnv_ne _ _ _ _ _ (by decide)]
    exact lookupA_setCredEnv_set _ _ _ _ _ hs hk
  · intro hk
    rw [lookupA_setCredEnv_ne _ _ _ _ _ (by decide),
        setCredEnv_absent _ _ _ _ hk,
        lookupA_setCredEnv_ne _ _ _ _ _ (by decide)]
  · intro s hs hk
    exact lookupA_setCredEnv_set _ _ _ _ _ hs hk
  · intro hk
    rw [setCredEnv_absent _ _ _ _ hk,
        lookupA_setCredEnv_ne _ _ _ _ _ (by decide),
        lookupA_setCredEnv_ne _ _ _ _ _ (by decide)]
  · intro base gen isfile rb
    unfold generate_podcast_endpoint
    rw [setCreds_ok env data h]
    cases generate_rest base gen isfile rb data <;> rfl

/-- C9 witness: a request carrying only an openai credential sets
OPENAI_API_KEY and leaves a pre-existing GEMINI_API_KEY untouched. -/
theorem credential_env_vars_witness :
    (setCreds [("GEMINI_API_KEY", "old")] [("openai_key", Val.str "sk-1")]).2
      = Option.none
    ∧ lookupA (setCreds [("GEMINI_API_KEY", "old")]
        [("openai_key", Val.str "sk-1")]).1 "OPENAI_API_KEY" = some "sk-1"
    ∧ lookupA (setCreds [("GEMINI_API_KEY", "old")]
        [("openai_key", Val.str "sk-1")]).1 "GEMINI_API_KEY"
        = lookupA [("GEMINI_API_KEY", "old")] "GEMINI_API_KEY" := by
  have h := credential_env_vars [("GEMINI_API_KEY", "old")]
    [("openai_key", Val.str "sk-1")] rfl
  exact ⟨h.1, h.2.1 "sk-1" (by decide) rfl, h.2.2.2.2.1 rfl⟩

/-! ### C10: an unconvertible creativity value fails the request (confirmed) -/

/-- C10: when the resolved creativity value (request value, else base value,
else 0.7) is not convertible by float(), and the earlier raise points do not
fire (credentials are well-formed, base text_to_speech is a dict when present,
the engine section lookup succeeds), the request fails with HTTP 500 carrying
the float() error message — it does not fall back to the default 0.7. -/
theorem creativity_float_failure (env : EnvT) (base : PyDict)
    (gen : Val → PyDict → Val → Bool → Except String GenResult)
    (isfile : String → Bool) (rb : List Nat) (data : PyDict)
    (hc : credsOk data = true) (hB : ttsOkB base = true)
    (hT : ttsBaseOkB data base = true)
    (hf : floatable (resolvedCreativity data base) = false) :
    (generate_podcast_endpoint env base gen isfile rb data).2
      = Except.error (500, floatErrMsg (resolvedCreativity data base)) := by
  have h1 : ∃ bd, asDictE (getDp base "text_to_speech" (Val.dict []))
      = Except.ok bd := by
    unfold ttsOkB at hB
    cases hv : lookupA base "text_to_speech" with
    | none => exact ⟨[], by simp [getDp, hv, asDictE]⟩
    | some v =>
      cases v with
      | dict d => exact ⟨d, by simp [getDp, hv, asDictE]⟩
      | none => rw [hv] at hB; simp at hB
      | bool b => rw [hv] at hB; simp at hB
      | num q => rw [hv] at hB; simp at hB
      | str s => rw [hv] at hB; simp at hB
      | list l => rw [hv] at hB; simp at hB
  obtain ⟨bd, h1⟩ := h1
  have h2 : ∃ td, ttsBaseVal data base = Except.ok (Val.dict td) := by
    unfold ttsBaseOkB at hT
    cases hv : ttsBaseVal data base with
    | error m => rw [hv] at hT; simp at hT
    | ok v =>
      cases v with
      | dict d => exact ⟨d, rfl⟩
      | none => rw [hv] at hT; simp at hT
      | bool b => rw [hv] at hT; simp at hT
      | num q => rw [hv] at hT; simp at hT
      | str s => rw [hv] at hT; simp at hT
      | list l => rw [hv] at hT; simp at hT
  obtain ⟨td, h2⟩ := h2
  have h3 : pyFloat (resolvedCreativity data base)
      = Except.error (floatErrMsg (resolvedCreativity data base)) := by
    unfold pyFloat
    rw [hf]
    simp
  have hdict : ∀ d : PyDict, asDictE (Val.dict d) = Except.ok d := fun _ => rfl
  have hrest : generate_rest base gen isfile rb data
      = Except.error (floatErrMsg (resolvedCreativity data base)) := by
    simp only [generate_rest, h1, h2, hdict, h3]
  simp only [generate_podcast_endpoint, setCreds_ok env data hc, hrest]

/-- C10 witness: a request whose creativity is the string high fails with the
float() conversion message. -/
theorem creativity_float_failure_witness :
    (generate_podcast_endpoint [] []
        (fun _ _ _ _ => Except.ok GenResult.objNoAttr) (fun _ => false) []
        [("creativity", Val.str "high")]).2
      = Except.error (500, "could not convert string to float: high") := by
  have h := creativity_float_failure [] []
    (fun _ _ _ _ => Except.ok GenResult.objNoAttr) (fun _ => false) []
    [("creativity", Val.str "high")] rfl rfl rfl (by decide)
  exact h.trans rfl

end Podcastfy
